import Mathlib

/-!
Verification of the wifi_radar_esp32 pipeline against its specification.

The development shallowly embeds the three core components:
- the streaming brace framer of `src/data_acquisition.py` (`DataAcquisition.run`),
- the device-state store of `src/device_status.py` (`DeviceStatus`),
- the periodic analysis engine of `src/radar_analyzer.py` (`RadarAnalyzer`),
- the dispatcher identity resolution of `src/main.py` (`consumer_loop`).

Machine numbers are modelled as `Int`/`Rat`; Python exceptions as `Except`;
the byte stream as `List Char`; Python dicts as insertion-ordered association
lists.
-/

namespace WifiRadar

/-! ## FrameDecoder: src/data_acquisition.py, DataAcquisition.run (lines 28-68)

The loop state is the accumulation string `buffer` and the signed counter
`brace_level`.  Each character of the decoded line is processed by the body
of `for char in line`.  We record as events the points where the code hands
the buffer to `json.loads` (a parse attempt, producing a Record or a logged
decode failure) and where it discards the buffer for exceeding
`MAX_BUFFER_LEN` (a logged overflow). -/

/-- The character `\x7b` (opening curly brace). -/
def lbrace : Char := Char.ofNat 123

/-- The character `\x7d` (closing curly brace). -/
def rbrace : Char := Char.ofNat 125

/-- Decoder loop state: `buffer` and `brace_level` of `DataAcquisition.run`. -/
structure DecState where
  buffer : List Char
  brace_level : Int
deriving DecidableEq, Repr

/-- Observable events of the decoder loop body: a completed buffer handed to
`json.loads` (line 52), or a buffer discarded for exceeding the maximum
length (lines 65-68). -/
inductive DecEvent where
  | attempt (buf : List Char)
  | overflow (buf : List Char)
deriving DecidableEq, Repr

/-- One iteration of `for char in line` in `DataAcquisition.run`
(src/data_acquisition.py lines 37-68), with buffer threshold `maxLen`
(`MAX_BUFFER_LEN`, default 16000). -/
def dstep (maxLen : Nat) (s : DecState) (c : Char) : DecState × List DecEvent :=
  if c = lbrace then
    -- lines 38-43: at level 0 a new object starts and the buffer is reset
    let buf := if s.brace_level = 0 then [] else s.buffer
    (⟨buf ++ [c], s.brace_level + 1⟩, [])
  else if c = rbrace then
    -- lines 45-57: append, decrement; at level 0 hand the buffer to json.loads
    let d := s.brace_level - 1
    let buf := s.buffer ++ [c]
    if d = 0 then (⟨[], d⟩, [DecEvent.attempt buf]) else (⟨buf, d⟩, [])
  else
    -- lines 59-68: other characters accumulate only while brace_level > 0,
    -- and only then is the overflow guard checked
    if 0 < s.brace_level then
      let buf := s.buffer ++ [c]
      if maxLen < buf.length then (⟨[], 0⟩, [DecEvent.overflow buf])
      else (⟨buf, s.brace_level⟩, [])
    else (s, [])

/-- Feeding a sequence of characters through `dstep`, collecting events. -/
def dfeed (maxLen : Nat) (s : DecState) : List Char → DecState × List DecEvent
  | [] => (s, [])
  | c :: cs =>
    let r1 := dstep maxLen s c
    let r2 := dfeed maxLen r1.1 cs
    (r2.1, r1.2 ++ r2.2)

/-- Decoder start state: `buffer = ""`, `brace_level = 0` (lines 28-29). -/
def dinit : DecState := ⟨[], 0⟩

/-- The stream consisting of a stray closing brace followed by the
well-formed record `\x7b"A":1\x7d`. -/
def strayCloseStream : List Char :=
  [rbrace, lbrace, Char.ofNat 34, Char.ofNat 65, Char.ofNat 34,
   Char.ofNat 58, Char.ofNat 49, rbrace]

/-- The well-formed record `\x7b"A":1\x7d` alone. -/
def wellFormedStream : List Char :=
  [lbrace, Char.ofNat 34, Char.ofNat 65, Char.ofNat 34,
   Char.ofNat 58, Char.ofNat 49, rbrace]

/-- C1: a stray closing brace at depth 0 drives `brace_level` to `-1` and is
appended to the buffer; no reset happens, and the immediately following
well-formed record is never handed to `json.loads` (no parse attempt at
all), while the same record alone is parsed.  This contradicts the
specified defensive reset (depth back to 0, buffer discarded, subsequent
records parsed). -/
theorem stray_close_never_recovers :
    (dfeed 16000 dinit strayCloseStream).2 = []
    ∧ (dfeed 16000 dinit strayCloseStream).1.brace_level = -1
    ∧ (dfeed 16000 dinit wellFormedStream).2
        = [DecEvent.attempt wellFormedStream] := by
  refine ⟨by decide, by decide, by decide⟩

/-- Five opening braces: every byte of the stream is a brace. -/
def braceOnlyStream : List Char := [lbrace, lbrace, lbrace, lbrace, lbrace]

/-- C4 counterexample: with the configured threshold 3, feeding five opening
braces leaves a buffer of length 5 > 3 with depth 5 > 0 and no overflow
event (nor any other event) is ever emitted — the overflow guard is only
evaluated in the non-brace branch of the loop. -/
theorem brace_bytes_escape_overflow_guard :
    (dfeed 3 dinit braceOnlyStream).1.buffer.length = 5
    ∧ (dfeed 3 dinit braceOnlyStream).2 = []
    ∧ (0 : Int) < (dfeed 3 dinit braceOnlyStream).1.brace_level
    ∧ 3 < (dfeed 3 dinit braceOnlyStream).1.buffer.length := by
  refine ⟨by decide, by decide, by decide, by decide⟩

/-- C4 (amended): the overflow guard applies exactly to non-brace bytes
processed while `brace_level > 0`: after such a byte the buffer never
exceeds the threshold; the buffer is discarded, the depth reset to 0 and an
overflow event emitted precisely when appending the byte would exceed the
threshold, and otherwise the byte is appended with no event. -/
theorem overflow_guard_nonbrace (maxLen : Nat) (s : DecState) (c : Char)
    (h1 : c ≠ lbrace) (h2 : c ≠ rbrace) (h3 : 0 < s.brace_level) :
    (dstep maxLen s c).1.buffer.length ≤ maxLen
    ∧ (maxLen < s.buffer.length + 1 →
        dstep maxLen s c = (⟨[], 0⟩, [DecEvent.overflow (s.buffer ++ [c])]))
    ∧ (s.buffer.length + 1 ≤ maxLen →
        dstep maxLen s c = (⟨s.buffer ++ [c], s.brace_level⟩, [])) := by
  unfold dstep
  rw [if_neg h1, if_neg h2, if_pos h3]
  simp only [List.length_append, List.length_cons, List.length_nil]
  by_cases h : maxLen < s.buffer.length + 1
  · rw [if_pos (by simpa using h)]
    exact ⟨by simp, fun _ => rfl, fun hle => absurd h (by omega)⟩
  · rw [if_neg (by simpa using h)]
    exact ⟨by simp; omega, fun hlt => absurd hlt h, fun _ => rfl⟩

/-- Witness for `overflow_guard_nonbrace` at a concrete state: buffer of
length 2, threshold 2, one more non-brace byte triggers the overflow reset. -/
theorem overflow_guard_nonbrace_witness :
    ((Char.ofNat 97 ≠ lbrace) ∧ (Char.ofNat 97 ≠ rbrace)
      ∧ (0 : Int) < (⟨[lbrace, Char.ofNat 98], 1⟩ : DecState).brace_level)
    ∧ (dstep 2 ⟨[lbrace, Char.ofNat 98], 1⟩ (Char.ofNat 97)).1.buffer.length ≤ 2
    ∧ (2 < ([lbrace, Char.ofNat 98] : List Char).length + 1 →
        dstep 2 ⟨[lbrace, Char.ofNat 98], 1⟩ (Char.ofNat 97)
          = (⟨[], 0⟩, [DecEvent.overflow
              ([lbrace, Char.ofNat 98] ++ [Char.ofNat 97])])) := by
  refine ⟨⟨by decide, by decide, by decide⟩, ?_, ?_⟩
  · exact (overflow_guard_nonbrace 2 ⟨[lbrace, Char.ofNat 98], 1⟩ (Char.ofNat 97)
      (by decide) (by decide) (by decide)).1
  · exact (overflow_guard_nonbrace 2 ⟨[lbrace, Char.ofNat 98], 1⟩ (Char.ofNat 97)
      (by decide) (by decide) (by decide)).2.1

/-! ## TelemetryStore: src/device_status.py, class DeviceStatus

Python dicts are embedded as insertion-ordered association lists: assignment
to an existing key replaces the value in place, assignment to a new key
appends at the end.  `deque(maxlen=300)` append is embedded as append plus
eviction from the front once the length exceeds the capacity. -/

/-- Lookup in an insertion-ordered association list (Python `d[k]` /
`k in d`). -/
def lookupA {α β : Type} [DecidableEq α] : List (α × β) → α → Option β
  | [], _ => none
  | (k, v) :: rest, k' => if k' = k then some v else lookupA rest k'

/-- Assignment `d[k] = v` in an insertion-ordered association list: replace
in place if the key exists, else append at the end. -/
def setA {α β : Type} [DecidableEq α] : List (α × β) → α → β → List (α × β)
  | [], k, v => [(k, v)]
  | (k0, v0) :: rest, k, v =>
    if k = k0 then (k0, v) :: rest else (k0, v0) :: setA rest k v

/-- `MAX_CSI_FRAMES = 300` (src/device_status.py line 4). -/
def MAX_CSI_FRAMES : Nat := 300

/-- `MASTER_ID` (src/device_status.py line 5). -/
def MASTER_ID : String := "E8:9C:25:06:E9:80"

/-- One stored CSI frame: the dict `\x7b"Timestamp": ..., "CSI": [...]\x7d`
appended to the per-device deque (src/device_status.py lines 80-84).  The
timestamp may be `None`; amplitudes are the JSON numbers of the record. -/
structure CSIEntry where
  Timestamp : Option Int := none
  CSI : List ℚ := []
deriving DecidableEq, Repr

/-- Per-device state dict created by `_ensure_device_exists`
(src/device_status.py lines 16-33); the field defaults are the initial
values assigned there. -/
structure Device where
  RSSI : Option Int := none
  CSI : List CSIEntry := []
  IPAddress : Option String := none
  Gateway : Option String := none
  Netmask : Option String := none
  FreeHeap : Option Int := none
  FreeInternalHeap : Option Int := none
  SyncCount : Option Int := none
  LastSyncTimestamp : Option Int := none
  Offset : Int := 0
deriving DecidableEq, Repr

/-- A decoded record (the JSON dict produced by `DataAcquisition.run` and
consumed by `update_device`); every field is optional.  `port` is the
`__port__` tag attached by the acquisition thread
(src/data_acquisition.py line 53). -/
structure Record where
  DeviceID : Option String := none
  MAC : Option String := none
  Timestamp : Option Int := none
  SyncCount : Option Int := none
  RSSI : Option Int := none
  CSI : Option (List ℚ) := none
  IPAddress : Option String := none
  Gateway : Option String := none
  Netmask : Option String := none
  FreeHeap : Option Int := none
  FreeInternalHeap : Option Int := none
  port : Option String := none
deriving DecidableEq, Repr

/-- The store: `self.devices` and `self.master_sync_history`
(src/device_status.py lines 8-14). -/
structure DeviceStatus where
  devices : List (String × Device) := []
  master_sync_history : List (Int × Int) := []
deriving DecidableEq, Repr

/-- `_ensure_device_exists` (src/device_status.py lines 16-33). -/
def ensure_device_exists (st : DeviceStatus) (device_id : String) : DeviceStatus :=
  if (lookupA st.devices device_id).isSome then st
  else { st with devices := st.devices ++ [(device_id, {})] }

/-- `deque(maxlen=cap).append`: append at the right, evicting from the left
whenever the length exceeds the capacity (src/device_status.py lines 22, 84). -/
def appendCapped (cap : Nat) (l : List CSIEntry) (e : CSIEntry) : List CSIEntry :=
  let l2 := l ++ [e]
  if cap < l2.length then l2.drop (l2.length - cap) else l2

/-- The body of the sync branch of `update_device`
(src/device_status.py lines 45-66), once both `SyncCount` and `Timestamp`
are known to be present. -/
def sync_apply (st : DeviceStatus) (device_id : String) (dev : Device)
    (sync_count : Int) (ts : Int) : Device × List (Int × Int) :=
  if device_id = MASTER_ID then
    ({ dev with SyncCount := some sync_count, LastSyncTimestamp := some ts },
     setA st.master_sync_history sync_count ts)
  else
    let dev1 := { dev with SyncCount := some sync_count,
                           LastSyncTimestamp := some ts }
    match lookupA st.master_sync_history sync_count with
    | some master_ts =>
      ({ dev1 with Offset := master_ts - ts }, st.master_sync_history)
    | none => (dev1, st.master_sync_history)

/-- Step 1 of `update_device` (src/device_status.py lines 41-66): sync
handling runs only when the record carries both `SyncCount` and
`Timestamp`.  Returns the updated device dict and the updated
`master_sync_history`. -/
def sync_step (st : DeviceStatus) (device_id : String) (dev : Device)
    (data : Record) : Device × List (Int × Int) :=
  match data.SyncCount, data.Timestamp with
  | some sync_count, some ts => sync_apply st device_id dev sync_count ts
  | _, _ => (dev, st.master_sync_history)

/-- Steps 3-5 of `update_device` (src/device_status.py lines 72-95): RSSI,
CSI append (with the timestamp already corrected in step 2), and the scalar
merge of IP and memory fields.  `dataTs` is the value of
`data.get("Timestamp", None)` after the in-place correction of step 2. -/
def merge_step (dev : Device) (data : Record) (dataTs : Option Int) : Device :=
  let dev := match data.RSSI with
    | some r => { dev with RSSI := some r } | none => dev
  let dev := match data.CSI with
    | some csi =>
      { dev with CSI := appendCapped MAX_CSI_FRAMES dev.CSI ⟨dataTs, csi⟩ }
    | none => dev
  let dev := match data.IPAddress with
    | some v => { dev with IPAddress := some v } | none => dev
  let dev := match data.Gateway with
    | some v => { dev with Gateway := some v } | none => dev
  let dev := match data.Netmask with
    | some v => { dev with Netmask := some v } | none => dev
  let dev := match data.FreeHeap with
    | some v => { dev with FreeHeap := some v } | none => dev
  match data.FreeInternalHeap with
    | some v => { dev with FreeInternalHeap := some v } | none => dev

/-- `update_device` (src/device_status.py lines 35-95): ensure the device
exists, run sync handling, correct the incoming timestamp by the (possibly
just updated) offset, then merge scalars and append CSI. -/
def update_device (st : DeviceStatus) (device_id : String) (data : Record) :
    DeviceStatus :=
  let st1 := ensure_device_exists st device_id
  let dev0 := (lookupA st1.devices device_id).getD {}
  let sr := sync_step st1 device_id dev0 data
  -- step 2 (lines 68-70): data["Timestamp"] += dev["Offset"], using the
  -- offset as it stands after step 1
  let dataTs := data.Timestamp.map (fun t => t + sr.1.Offset)
  let devF := merge_step sr.1 data dataTs
  { devices := setA st1.devices device_id devF, master_sync_history := sr.2 }

/-- One per-device snapshot dict built by `get_all_devices`
(src/device_status.py lines 104-115). -/
structure DeviceSnapshot where
  RSSI : Option Int := none
  IPAddress : Option String := none
  Gateway : Option String := none
  Netmask : Option String := none
  FreeHeap : Option Int := none
  FreeInternalHeap : Option Int := none
  SyncCount : Option Int := none
  LastSyncTimestamp : Option Int := none
  Offset : Int := 0
  CSI : List CSIEntry := []
deriving DecidableEq, Repr

/-- `get_all_devices` (src/device_status.py lines 97-116): a per-device
field-by-field copy, with the CSI deque converted to a list. -/
def get_all_devices (st : DeviceStatus) : List (String × DeviceSnapshot) :=
  st.devices.map (fun p =>
    (p.1, { RSSI := p.2.RSSI, IPAddress := p.2.IPAddress,
            Gateway := p.2.Gateway, Netmask := p.2.Netmask,
            FreeHeap := p.2.FreeHeap, FreeInternalHeap := p.2.FreeInternalHeap,
            SyncCount := p.2.SyncCount,
            LastSyncTimestamp := p.2.LastSyncTimestamp,
            Offset := p.2.Offset, CSI := p.2.CSI }))

/-- The `Offset` field of a device in the store (`0` for a device not yet
created, matching the initial value of `_ensure_device_exists`). -/
def offsetOf (st : DeviceStatus) (device_id : String) : Int :=
  ((lookupA st.devices device_id).getD {}).Offset

/-- The CSI history of a device in the store (empty for a device not yet
created). -/
def csiOf (st : DeviceStatus) (device_id : String) : List CSIEntry :=
  ((lookupA st.devices device_id).getD {}).CSI

/-- Folding a sequence of `(device_id, record)` updates over the empty
store. -/
def applyUpdates (l : List (String × Record)) : DeviceStatus :=
  l.foldl (fun s p => update_device s p.1 p.2) {}

/-- The slave device id of the configured roster (src/main.py line 75). -/
def SLAVE_ID : String := "E9:9C:25:06:E9:80"

/-! ### Association-list and store lemmas -/

theorem lookupA_setA_self {α β : Type} [DecidableEq α]
    (l : List (α × β)) (k : α) (v : β) : lookupA (setA l k v) k = some v := by
  induction l with
  | nil => simp [setA, lookupA]
  | cons p rest ih =>
    obtain ⟨k0, v0⟩ := p
    by_cases h : k = k0
    · simp [setA, lookupA, h]
    · simp [setA, lookupA, h, ih]

theorem lookupA_setA_ne {α β : Type} [DecidableEq α]
    (l : List (α × β)) (k k' : α) (v : β) (h : k' ≠ k) :
    lookupA (setA l k v) k' = lookupA l k' := by
  induction l with
  | nil => simp [setA, lookupA, h]
  | cons p rest ih =>
    obtain ⟨k0, v0⟩ := p
    by_cases hk : k = k0
    · subst hk; simp [setA, lookupA, h]
    · simp only [setA, if_neg hk, lookupA]
      by_cases hk' : k' = k0 <;> simp [hk', ih]

theorem lookupA_append_ne {α β : Type} [DecidableEq α]
    (l : List (α × β)) (k k' : α) (d : β) (h : k' ≠ k) :
    lookupA (l ++ [(k, d)]) k' = lookupA l k' := by
  induction l with
  | nil => simp [lookupA, h]
  | cons p rest ih =>
    obtain ⟨k0, v0⟩ := p
    by_cases hk' : k' = k0 <;> simp [lookupA, hk', ih]

theorem lookupA_append_self {α β : Type} [DecidableEq α]
    (l : List (α × β)) (k : α) (d : β) (h : lookupA l k = none) :
    lookupA (l ++ [(k, d)]) k = some d := by
  induction l with
  | nil => simp [lookupA]
  | cons p rest ih =>
    obtain ⟨k0, v0⟩ := p
    by_cases hk : k = k0
    · simp [lookupA, hk] at h
    · simp only [lookupA, if_neg hk] at h
      simp [lookupA, hk, ih h]

theorem ensure_history (st : DeviceStatus) (d : String) :
    (ensure_device_exists st d).master_sync_history = st.master_sync_history := by
  unfold ensure_device_exists; split <;> rfl

theorem lookup_ensure_self (st : DeviceStatus) (d : String) :
    lookupA (ensure_device_exists st d).devices d
      = some ((lookupA st.devices d).getD {}) := by
  unfold ensure_device_exists
  split
  · rename_i h
    rcases Option.isSome_iff_exists.mp h with ⟨v, hv⟩
    simp [hv]
  · rename_i h
    have hn : lookupA st.devices d = none := Option.not_isSome_iff_eq_none.mp h
    simp [lookupA_append_self st.devices d _ hn, hn]

theorem lookup_ensure_ne (st : DeviceStatus) (d d' : String) (h : d' ≠ d) :
    lookupA (ensure_device_exists st d).devices d' = lookupA st.devices d' := by
  unfold ensure_device_exists
  split
  · rfl
  · exact lookupA_append_ne st.devices d d' _ h

/-- Frame property of `update_device`: the only dict entry written is
`self.devices[device_id]`. -/
theorem lookup_update_ne (st : DeviceStatus) (d : String) (r : Record)
    (d' : String) (h : d' ≠ d) :
    lookupA (update_device st d r).devices d' = lookupA st.devices d' := by
  simp only [update_device]
  rw [lookupA_setA_ne _ _ _ _ h, lookup_ensure_ne st d d' h]

/-- Steps 3-5 of `update_device` never write the `Offset` field. -/
theorem merge_Offset (dev : Device) (data : Record) (ts : Option Int) :
    (merge_step dev data ts).Offset = dev.Offset := by
  unfold merge_step
  cases data.RSSI <;> cases data.CSI <;> cases data.IPAddress <;>
    cases data.Gateway <;> cases data.Netmask <;> cases data.FreeHeap <;>
    cases data.FreeInternalHeap <;> rfl

/-- The offset of the updated device is decided entirely by the sync step. -/
theorem offsetOf_update_self (st : DeviceStatus) (d : String) (r : Record) :
    offsetOf (update_device st d r) d
      = (sync_step (ensure_device_exists st d) d
          ((lookupA st.devices d).getD {}) r).1.Offset := by
  simp only [offsetOf, update_device, lookupA_setA_self, Option.getD_some,
    lookup_ensure_self, merge_Offset]

/-- Sync handling is skipped when the record lacks SyncCount or Timestamp. -/
theorem sync_step_no_sync (st : DeviceStatus) (id : String) (dev : Device)
    (data : Record) (h : data.SyncCount = none ∨ data.Timestamp = none) :
    sync_step st id dev data = (dev, st.master_sync_history) := by
  unfold sync_step
  rcases h with h | h
  · rw [h]
  · rw [h]; cases data.SyncCount <;> rfl

/-- The master branch of the sync step never writes `Offset`. -/
theorem sync_step_master (st : DeviceStatus) (dev : Device) (data : Record) :
    (sync_step st MASTER_ID dev data).1.Offset = dev.Offset := by
  unfold sync_step
  cases data.SyncCount <;> cases data.Timestamp <;> rfl

/-- The slave branch leaves `Offset` unchanged when the sync count has no
match in the master sync history. -/
theorem sync_step_slave_nomatch (st : DeviceStatus) (id : String)
    (dev : Device) (data : Record) (sc : Int) (ts : Int)
    (hsc : data.SyncCount = some sc) (hts : data.Timestamp = some ts)
    (hl : lookupA st.master_sync_history sc = none) :
    (sync_step st id dev data).1.Offset = dev.Offset := by
  unfold sync_step
  rw [hsc, hts]
  show (sync_apply st id dev sc ts).1.Offset = dev.Offset
  unfold sync_apply
  by_cases hid : id = MASTER_ID
  · rw [if_pos hid]
  · rw [if_neg hid, hl]

/-- A device's offset is unchanged by an update whose sync count is absent
from the master sync history. -/
theorem offset_no_match (st : DeviceStatus) (d : String) (r : Record)
    (sc : Int) (hsc : r.SyncCount = some sc)
    (hl : lookupA st.master_sync_history sc = none) :
    offsetOf (update_device st d r) d = offsetOf st d := by
  rw [offsetOf_update_self]
  cases hts : r.Timestamp with
  | none => rw [sync_step_no_sync _ _ _ _ (Or.inr hts)]; rfl
  | some ts =>
    by_cases hm : d = MASTER_ID
    · subst hm; rw [sync_step_master]; rfl
    · rw [sync_step_slave_nomatch _ _ _ _ sc ts hsc hts
        (by rw [ensure_history]; exact hl)]
      rfl

/-- An offset change requires a record with both SyncCount and Timestamp
whose sync count is already present in the master sync history. -/
theorem offset_change_needs_sync (st : DeviceStatus) (d : String) (r : Record)
    (d' : String) (h : offsetOf (update_device st d r) d' ≠ offsetOf st d') :
    ∃ sc ts, r.SyncCount = some sc ∧ r.Timestamp = some ts
      ∧ (lookupA st.master_sync_history sc).isSome = true := by
  by_cases hd : d' = d
  · subst hd
    rw [offsetOf_update_self] at h
    cases hsc : r.SyncCount with
    | none =>
      exact absurd (by rw [sync_step_no_sync _ _ _ _ (Or.inl hsc)]; rfl) h
    | some sc =>
      cases hts : r.Timestamp with
      | none =>
        exact absurd (by rw [sync_step_no_sync _ _ _ _ (Or.inr hts)]; rfl) h
      | some ts =>
        cases hl : lookupA st.master_sync_history sc with
        | none =>
          by_cases hm : d' = MASTER_ID
          · subst hm
            exact absurd (by rw [sync_step_master]; rfl) h
          · exact absurd (by rw [sync_step_slave_nomatch _ _ _ _ sc ts hsc hts
              (by rw [ensure_history]; exact hl)]; rfl) h
        | some m => exact ⟨sc, ts, rfl, rfl, by rw [hl]; rfl⟩
  · exact absurd
      (by simp only [offsetOf]; rw [lookup_update_ne st d r d' hd]) h

/-- One update keeps the master's offset at 0. -/
theorem master_offset_update (st : DeviceStatus) (d : String) (r : Record)
    (h0 : offsetOf st MASTER_ID = 0) :
    offsetOf (update_device st d r) MASTER_ID = 0 := by
  by_cases hd : MASTER_ID = d
  · subst hd
    rw [offsetOf_update_self, sync_step_master]
    exact h0
  · simp only [offsetOf]
    rw [lookup_update_ne st d r MASTER_ID hd]
    exact h0

/-- Any fold of updates keeps the master's offset at 0. -/
theorem master_offset_fold :
    ∀ (l : List (String × Record)) (st : DeviceStatus),
      offsetOf st MASTER_ID = 0 →
      offsetOf (l.foldl (fun s p => update_device s p.1 p.2) st) MASTER_ID = 0 := by
  intro l
  induction l with
  | nil => intro st h; exact h
  | cons p rest ih => intro st h; exact ih _ (master_offset_update st p.1 p.2 h)

/-! ### C3: the concrete clock-sync scenario -/

/-- Master record `\x7bSyncCount:5, Timestamp:1000\x7d`. -/
def c3rec1 : Record := { SyncCount := some 5, Timestamp := some 1000 }

/-- Slave record `\x7bSyncCount:5, Timestamp:900\x7d`. -/
def c3rec2 : Record := { SyncCount := some 5, Timestamp := some 900 }

/-- Slave record `\x7bSyncCount:6, Timestamp:ts\x7d`, whose sync count is
absent from the master sync history. -/
def c3rec3 (ts : Int) : Record := { SyncCount := some 6, Timestamp := some ts }

/-- Store after the master record. -/
def c3st1 : DeviceStatus := update_device {} MASTER_ID c3rec1

/-- Store after the master record and the first slave record. -/
def c3st2 : DeviceStatus := update_device c3st1 SLAVE_ID c3rec2

/-- C3: after master `\x7bSyncCount:5, Timestamp:1000\x7d` and slave
`\x7bSyncCount:5, Timestamp:900\x7d` the slave's offset is
`1000 - 900 = 100`; a later slave record with SyncCount 6 — absent from the
master sync history — leaves the offset at 100, whatever its timestamp. -/
theorem clock_offset_scenario (ts3 : Int) :
    offsetOf c3st2 SLAVE_ID = 100
    ∧ offsetOf (update_device c3st2 SLAVE_ID (c3rec3 ts3)) SLAVE_ID = 100 := by
  constructor
  · decide
  · rw [offset_no_match c3st2 SLAVE_ID (c3rec3 ts3) 6 rfl (by decide)]
    decide

/-! ### C8: offset invariants -/

/-- C8: in every store reachable by updates from the empty store the
master's offset is 0, and a single update changes a device's offset only if
its record carries both SyncCount and Timestamp with the sync count already
present in the master sync history. -/
theorem offset_sync_invariants :
    (∀ l : List (String × Record), offsetOf (applyUpdates l) MASTER_ID = 0)
    ∧ (∀ (st : DeviceStatus) (d : String) (r : Record) (d' : String),
        offsetOf (update_device st d r) d' ≠ offsetOf st d' →
        ∃ sc ts, r.SyncCount = some sc ∧ r.Timestamp = some ts
          ∧ (lookupA st.master_sync_history sc).isSome = true) :=
  ⟨fun l => master_offset_fold l {} rfl, offset_change_needs_sync⟩

/-- Witness for `offset_sync_invariants`: the slave record of the C3
scenario really changes the offset (from 0 to 100), and the conclusion
names its sync data. -/
theorem offset_sync_invariants_witness :
    offsetOf (update_device c3st1 SLAVE_ID c3rec2) SLAVE_ID ≠ offsetOf c3st1 SLAVE_ID
    ∧ ∃ sc ts, c3rec2.SyncCount = some sc ∧ c3rec2.Timestamp = some ts
        ∧ (lookupA c3st1.master_sync_history sc).isSome = true :=
  ⟨by decide,
   offset_sync_invariants.2 c3st1 SLAVE_ID c3rec2 SLAVE_ID (by decide)⟩

/-! ### C10: updates never touch other devices -/

/-- C10: `update_device(deviceId, record)` leaves the entire state of every
other device id unchanged (the dict entry — RSSI, CSI history, IP fields,
heap fields, sync fields and offset — is the same before and after). -/
theorem update_touches_only_target (st : DeviceStatus) (d : String)
    (r : Record) (d' : String) (h : d' ≠ d) :
    lookupA (update_device st d r).devices d' = lookupA st.devices d' :=
  lookup_update_ne st d r d' h

/-- Witness for `update_touches_only_target` at concrete device ids. -/
theorem update_touches_only_target_witness :
    (("B" : String) ≠ "A")
    ∧ lookupA (update_device {} "A" { RSSI := some 1 }).devices "B"
        = lookupA ({} : DeviceStatus).devices "B" :=
  ⟨by decide, update_touches_only_target {} "A" { RSSI := some 1 } "B" (by decide)⟩

/-! ### C9: the CSI ring buffer -/

/-- A record carrying only an amplitude list. -/
def recCSI (a : List ℚ) : Record := { CSI := some a }

/-- The CSI entry stored for such a record (no timestamp). -/
def entryOf (a : List ℚ) : CSIEntry := { Timestamp := none, CSI := a }

/-- An update whose record carries a CSI list appends exactly one entry to
the device's capped history. -/
theorem csiOf_update_csi (st : DeviceStatus) (d : String) (a : List ℚ) :
    csiOf (update_device st d (recCSI a)) d
      = appendCapped MAX_CSI_FRAMES (csiOf st d) (entryOf a) := by
  simp only [csiOf, update_device, lookupA_setA_self, Option.getD_some,
    lookup_ensure_self]
  rfl

/-- When there is room, a capped append is a plain append. -/
theorem appendCapped_small (cap : Nat) (l : List CSIEntry) (e : CSIEntry)
    (h : l.length + 1 ≤ cap) : appendCapped cap l e = l ++ [e] := by
  have hlt : ¬ cap < (l ++ [e]).length := by
    rw [List.length_append]; simp; omega
  simp only [appendCapped, if_neg hlt]

/-- Folding capped appends from the empty history keeps the suffix of
capacity-many entries. -/
theorem foldl_appendCapped (cap : Nat) (es : List CSIEntry) :
    es.foldl (appendCapped cap) [] = es.drop (es.length - cap) := by
  induction es using List.reverseRecOn with
  | nil => simp
  | append_singleton l e ih =>
    rw [List.foldl_append]
    simp only [List.foldl_cons, List.foldl_nil]
    rw [ih]
    have hR : (l ++ [e]).length - cap = l.length + 1 - cap := by simp
    rw [hR]
    by_cases hc : l.length + 1 ≤ cap
    · have h0 : l.length - cap = 0 := by omega
      have h1 : l.length + 1 - cap = 0 := by omega
      rw [h0, List.drop_zero, h1, List.drop_zero]
      exact appendCapped_small cap l e hc
    · push_neg at hc
      have hcap : cap ≤ l.length := by omega
      have hA : (l.drop (l.length - cap)).length = cap := by
        rw [List.length_drop]; omega
      have hcond : cap < (l.drop (l.length - cap) ++ [e]).length := by
        rw [List.length_append, hA]; simp
      have hidx : (l.drop (l.length - cap) ++ [e]).length - cap = 1 := by
        rw [List.length_append, hA]; simp
      simp only [appendCapped, if_pos hcond, hidx]
      by_cases h0 : cap = 0
      · subst h0
        simp only [Nat.sub_zero, List.drop_length, List.nil_append]
        rw [List.drop_eq_nil_of_le (by simp : (l ++ [e]).length ≤ l.length + 1)]
        rfl
      · have h1 : 1 ≤ cap := Nat.one_le_iff_ne_zero.mpr h0
        rw [List.drop_append_of_le_length
          (by rw [hA]; omega : 1 ≤ (l.drop (l.length - cap)).length)]
        rw [List.drop_drop]
        rw [List.drop_append_of_le_length
          (by omega : l.length + 1 - cap ≤ l.length)]
        have harith : l.length - cap + 1 = l.length + 1 - cap := by omega
        rw [harith]

/-- Folding CSI-only updates through the store is folding capped appends on
the device's history. -/
theorem csi_fold (d : String) :
    ∀ (amps : List (List ℚ)) (st : DeviceStatus),
      csiOf ((amps.map (fun a => (d, recCSI a))).foldl
          (fun s p => update_device s p.1 p.2) st) d
        = (amps.map entryOf).foldl (appendCapped MAX_CSI_FRAMES) (csiOf st d) := by
  intro amps
  induction amps with
  | nil => intro st; rfl
  | cons a rest ih =>
    intro st
    simp only [List.map_cons, List.foldl_cons]
    rw [ih, csiOf_update_csi]

/-- C9: after any sequence of CSI-carrying updates for a device, its
history holds exactly the last `MAX_CSI_FRAMES = 300` appended frames —
oldest evicted first, length `min n 300`, most recent equal to the last
appended frame. -/
theorem csi_ring_buffer (amps : List (List ℚ)) (d : String) :
    csiOf (applyUpdates (amps.map (fun a => (d, recCSI a)))) d
        = (amps.map entryOf).drop ((amps.map entryOf).length - MAX_CSI_FRAMES)
    ∧ (csiOf (applyUpdates (amps.map (fun a => (d, recCSI a)))) d).length
        = min amps.length MAX_CSI_FRAMES
    ∧ (csiOf (applyUpdates (amps.map (fun a => (d, recCSI a)))) d).getLast?
        = (amps.map entryOf).getLast? := by
  have h1 : csiOf (applyUpdates (amps.map (fun a => (d, recCSI a)))) d
      = (amps.map entryOf).foldl (appendCapped MAX_CSI_FRAMES) [] := by
    unfold applyUpdates
    rw [csi_fold]
    rfl
  rw [h1, foldl_appendCapped]
  refine ⟨rfl, ?_, ?_⟩
  · rw [List.length_drop, List.length_map]
    omega
  · by_cases h : (amps.map entryOf).length = 0
    · have hnil : amps.map entryOf = [] := List.eq_nil_of_length_eq_zero h
      simp [hnil]
    · rw [List.getLast?_drop, if_neg]
      have hM : MAX_CSI_FRAMES = 300 := rfl
      omega

/-! ## AnalysisEngine: src/radar_analyzer.py, class RadarAnalyzer

Python exceptions are modelled with `Except PyErr`.  The numeric kernel of
the spectral pipeline (`scipy.signal.stft`, the dB conversion and the mean
of the last time column) raises no exception and no claim depends on its
values, so the per-subcarrier motion score is a parameter `mscore`
(sampling rate and surviving amplitude values in, score out); everything
around it — frame selection, the zero-exclusion, the skip conditions, the
exception flow and the aggregation — is embedded from the source. -/

/-- A Python exception: `ValueError` (raised and caught in the analyzer) or
`TypeError` (raised by `None / 1e6` when a frame's timestamp is absent,
src/radar_analyzer.py line 66; caught nowhere). -/
inductive PyErr where
  | valueError (msg : String)
  | typeError
deriving DecidableEq, Repr

/-- `np.diff`: consecutive differences. -/
def diffL (l : List ℚ) : List ℚ := List.zipWith (fun a b => a - b) l.tail l

/-- `np.mean`: sum over length. -/
def meanL (l : List ℚ) : ℚ := l.sum / (l.length : ℚ)

/-- The list comprehension `[frame["Timestamp"] / 1e6 for frame in
csi_frames]` (src/radar_analyzer.py line 66): a `None` timestamp raises
`TypeError` at the first offending frame. -/
def timestampsSec : List CSIEntry → Except PyErr (List ℚ)
  | [] => Except.ok []
  | f :: rest =>
    match f.Timestamp with
    | none => Except.error PyErr.typeError
    | some t =>
      match timestampsSec rest with
      | Except.error e => Except.error e
      | Except.ok ts => Except.ok ((t : ℚ) / 1000000 :: ts)

/-- `RadarAnalyzer.calculate_sampling_rate` (src/radar_analyzer.py
lines 61-72). -/
def calculate_sampling_rate (csi_frames : List CSIEntry) : Except PyErr ℚ :=
  if csi_frames.length < 2 then
    Except.error (PyErr.valueError "Not enough CSI frames to calculate sampling rate.")
  else
    match timestampsSec csi_frames with
    | Except.error e => Except.error e
    | Except.ok timestamps =>
      let intervals := diffL timestamps
      if intervals.length < 1 ∨ meanL intervals ≤ 0 then
        Except.error (PyErr.valueError "Invalid or zero intervals in timestamps.")
      else Except.ok (1 / meanL intervals)

/-- The amplitude values collected for one subcarrier index
(src/radar_analyzer.py lines 95-99): across frames in order, only frames
long enough for the index, only non-zero values. -/
def amp_vals (frames : List CSIEntry) (i : Nat) : List ℚ :=
  frames.filterMap (fun entry =>
    if i < entry.CSI.length ∧ entry.CSI.getD i 0 ≠ 0
    then some (entry.CSI.getD i 0) else none)

/-- `RadarAnalyzer.doppler_analysis_all_subcarriers`
(src/radar_analyzer.py lines 74-139): subcarrier indices range over the
length of the FIRST frame's amplitude list (line 90); a subcarrier with
fewer than 2 surviving values is skipped (line 101); each analyzed
subcarrier contributes `mscore` to the mean that is the aggregated motion
score (lines 129-137). -/
def doppler_analysis_all_subcarriers (mscore : ℚ → List ℚ → ℚ)
    (frames : List CSIEntry) (sampling_rate : ℚ) :
    List (Nat × ℚ) × ℚ :=
  let total_subcarriers := (frames.headD {}).CSI.length
  let subcarrier_results := (List.range total_subcarriers).filterMap (fun i =>
    let av := amp_vals frames i
    if av.length < 2 then none
    else some (i, mscore sampling_rate av))
  let valid_subcarriers := subcarrier_results.length
  if 0 < valid_subcarriers then
    (subcarrier_results,
     (subcarrier_results.map Prod.snd).sum / (valid_subcarriers : ℚ))
  else (subcarrier_results, 0)

/-- The analyzer's published results: `self.subcarrier_data` and
`self.motion_scores` (src/radar_analyzer.py lines 24-25). -/
structure RadarAnalyzer where
  subcarrier_data : List (String × List (Nat × ℚ)) := []
  motion_scores : List (String × ℚ) := []
deriving DecidableEq, Repr

/-- The body of the per-device loop of `RadarAnalyzer.run`
(src/radar_analyzer.py lines 32-52): a device absent from the snapshot is
skipped; a `ValueError` is caught, logged and the loop continues with the
previous results retained; any other exception (the `TypeError` from an
absent timestamp) propagates and kills the thread. -/
def analyze_device (mscore : ℚ → List ℚ → ℚ)
    (snapshot : List (String × DeviceSnapshot)) (device : String)
    (st : RadarAnalyzer) : Except PyErr RadarAnalyzer :=
  match lookupA snapshot device with
  | none => Except.ok st
  | some d =>
    match calculate_sampling_rate d.CSI with
    | Except.ok sampling_rate =>
      let r := doppler_analysis_all_subcarriers mscore d.CSI sampling_rate
      Except.ok { subcarrier_data := setA st.subcarrier_data device r.1,
                  motion_scores := setA st.motion_scores device r.2 }
    | Except.error (PyErr.valueError _) => Except.ok st
    | Except.error PyErr.typeError => Except.error PyErr.typeError

/-- One tick of `RadarAnalyzer.run` (src/radar_analyzer.py lines 28-55):
snapshot the store, then iterate the configured roster; an uncaught
exception aborts the whole tick (and the thread). -/
def analyzer_tick (mscore : ℚ → List ℚ → ℚ) (roster : List String)
    (store : DeviceStatus) (st : RadarAnalyzer) : Except PyErr RadarAnalyzer :=
  roster.foldlM (fun acc device =>
    analyze_device mscore (get_all_devices store) device acc) st

/-! ### C2: error isolation of the analysis tick -/

/-- A store in which the slave device has two CSI frames whose timestamps
are absent (appended by records carrying a CSI list but no Timestamp —
a state the store explicitly supports). -/
def c2store : DeviceStatus :=
  applyUpdates [(SLAVE_ID, recCSI [1]), (SLAVE_ID, recCSI [1])]

/-- A store in which the slave device has a single CSI frame. -/
def c2storeOne : DeviceStatus := applyUpdates [(SLAVE_ID, recCSI [1])]

/-- C2 evaluated at the failing input: with two timestamp-less CSI frames
the sampling-rate computation raises `TypeError` (`None / 1e6`), which is
not a `ValueError` and therefore escapes the per-device handler — the tick
aborts instead of skipping the device.  By contrast the `ValueError` from
having fewer than 2 frames is caught and the tick succeeds with the
published results unchanged. -/
theorem analyzer_tick_dies_on_absent_timestamp :
    analyzer_tick (fun _ _ => 0) [SLAVE_ID] c2store {}
        = Except.error PyErr.typeError
    ∧ analyzer_tick (fun _ _ => 0) [SLAVE_ID] c2storeOne {}
        = Except.ok {} := by
  refine ⟨by rfl, by rfl⟩

/-! ### C6: which subcarriers are analyzed, and with which values -/

/-- The set of subcarrier indices whose results are stored by
`doppler_analysis_all_subcarriers`: indices below the FIRST frame's
amplitude-sequence length whose collected values number at least 2
(src/radar_analyzer.py lines 90-101). -/
def analyzedSubcarriers (frames : List CSIEntry) : List Nat :=
  (List.range (frames.headD {}).CSI.length).filter
    (fun i => !(decide ((amp_vals frames i).length < 2)))

/-- The stored result set of the doppler analysis has exactly the indices
of `analyzedSubcarriers`. -/
theorem doppler_result_indices (mscore : ℚ → List ℚ → ℚ)
    (frames : List CSIEntry) (sampling_rate : ℚ) :
    ((doppler_analysis_all_subcarriers mscore frames sampling_rate).1).map Prod.fst
      = analyzedSubcarriers frames := by
  have key : ∀ l : List Nat,
      (l.filterMap (fun i =>
        if (amp_vals frames i).length < 2 then none
        else some (i, mscore sampling_rate (amp_vals frames i)))).map Prod.fst
      = l.filter (fun i => !(decide ((amp_vals frames i).length < 2))) := by
    intro l
    induction l with
    | nil => rfl
    | cons i t ih =>
      rw [List.filterMap_cons, List.filter_cons]
      by_cases h : (amp_vals frames i).length < 2
      · simp only [if_pos h, decide_eq_true h, Bool.not_true, ih]
        rfl
      · simp only [if_neg h, decide_eq_false h, Bool.not_false, if_pos,
          List.map_cons, ih]
  unfold doppler_analysis_all_subcarriers analyzedSubcarriers
  dsimp only
  split
  · exact key _
  · exact key _

/-- Modelled from the spec: the shortest buffered frame's
amplitude-sequence length, the bound the specification asserts for the
analyzed subcarrier indices. -/
def shortestAmpLen (frames : List CSIEntry) : Nat :=
  ((frames.map (fun e => e.CSI.length)).min?).getD 0

/-- Four buffered frames in which the second frame carries a single
amplitude while the others carry three; subcarrier 2 has three non-zero
values. -/
def c6frames : List CSIEntry :=
  [{ Timestamp := some 0, CSI := [1, 2, 3] },
   { Timestamp := some 1, CSI := [4] },
   { Timestamp := some 2, CSI := [5, 6, 7] },
   { Timestamp := some 3, CSI := [8, 9, 10] }]

/-- C6 counterexample: subcarrier index 2 is analyzed although the shortest
frame's amplitude-sequence length is 1 — index 2 is not a valid index into
every frame's amplitude sequence.  The range is bounded by the first
frame's length, not the shortest. -/
theorem analyzed_beyond_shortest :
    (2 ∈ analyzedSubcarriers c6frames)
    ∧ shortestAmpLen c6frames = 1
    ∧ ¬ (2 < shortestAmpLen c6frames) := by
  refine ⟨by decide, by decide, by decide⟩

/-- C6 (amended): every analyzed subcarrier index is below the FIRST
frame's amplitude-sequence length, and the values collected for an index
are exactly the amplitudes of the frames across the buffer in temporal
order, with zero values excluded (a frame too short for the index
contributes its out-of-range default 0, hence is excluded as well). -/
theorem analyzed_indices_and_values (frames : List CSIEntry) :
    (∀ i ∈ analyzedSubcarriers frames, i < (frames.headD {}).CSI.length)
    ∧ (∀ i, amp_vals frames i
        = (frames.map (fun e => e.CSI.getD i 0)).filter (fun v => !(v == 0))) := by
  constructor
  · intro i hi
    exact List.mem_range.mp (List.mem_of_mem_filter hi)
  · intro i
    induction frames with
    | nil => rfl
    | cons f t ih =>
      show (f :: t).filterMap _ = _
      rw [List.filterMap_cons, List.map_cons, List.filter_cons]
      by_cases hv : f.CSI.getD i 0 = 0
      · have hcond : ¬ (i < f.CSI.length ∧ f.CSI.getD i 0 ≠ 0) := by
          intro hx; exact hx.2 hv
        rw [if_neg hcond]
        have hb : (f.CSI.getD i 0 == 0) = true := beq_iff_eq.mpr hv
        rw [hb]
        simp only [Bool.not_true]
        rw [if_neg Bool.false_ne_true]
        exact ih
      · have hlen : i < f.CSI.length := by
          by_contra hge
          exact hv (List.getD_eq_default f.CSI 0 (Nat.le_of_not_lt hge))
        rw [if_pos ⟨hlen, hv⟩]
        have hb : (f.CSI.getD i 0 == 0) = false := beq_eq_false_iff_ne.mpr hv
        rw [hb]
        simp only [Bool.not_false]
        rw [if_pos trivial]
        exact congrArg (List.cons _) ih

/-- Witness for `analyzed_indices_and_values`: index 2 is analyzed for the
concrete frame set, hence below the first frame's length 3; and its
collected values are the non-zero amplitudes 3, 7, 10 in temporal order. -/
theorem analyzed_indices_and_values_witness :
    (2 ∈ analyzedSubcarriers c6frames ∧ 2 < (c6frames.headD {}).CSI.length)
    ∧ amp_vals c6frames 2 = [3, 7, 10] :=
  ⟨⟨by decide, (analyzed_indices_and_values c6frames).1 2 (by decide)⟩, by decide⟩

/-! ## Dispatcher: src/main.py, consumer_loop (lines 29-65)

Identity resolution of a dequeued record: the `DeviceID` field, else the
`MAC` field, else the record is dropped (`continue`).  A resolved id not in
`device_coords` is also dropped with a warning.  The `__port__` tag set by
the acquisition thread is never consulted. -/

/-- Identity resolution of `consumer_loop` (src/main.py lines 34-39). -/
def resolve_device_id (data : Record) : Option String :=
  match data.DeviceID with
  | some id => some id
  | none =>
    match data.MAC with
    | some m => some m
    | none => none

/-- Processing of one dequeued record by `consumer_loop`
(src/main.py lines 34-44): resolve the id, drop if unresolved or not in
`device_coords`, else update the store. -/
def consumer_step (device_coords : List String) (store : DeviceStatus)
    (data : Record) : DeviceStatus :=
  match resolve_device_id data with
  | none => store
  | some device_id =>
    if device_id ∈ device_coords then update_device store device_id data
    else store

/-- A record carrying only RSSI and the transport tag, no DeviceID or MAC. -/
def c5rec : Record := { RSSI := some 5, port := some "/dev/ttyUSB0" }

/-- C5 counterexample: a record whose only identity information is the
originating transport's identifier is dropped — the store is untouched even
though the transport id is on the allow-list — while processing it under
that id would have changed the store.  The transport fallback the claim
describes does not exist. -/
theorem transport_id_never_used :
    c5rec.port = some "/dev/ttyUSB0"
    ∧ resolve_device_id c5rec = none
    ∧ consumer_step ["/dev/ttyUSB0"] {} c5rec = ({} : DeviceStatus)
    ∧ update_device ({} : DeviceStatus) "/dev/ttyUSB0" c5rec
        ≠ ({} : DeviceStatus) := by
  refine ⟨rfl, rfl, rfl, by decide⟩

/-- C5 (amended): identity is the explicit DeviceID field if present, else
the MAC field; a record with neither is dropped (the transport identifier
is attached to the record as `__port__` but never used for identity), and a
resolved record is applied to the store only if its id is in the configured
`device_coords` roster, else dropped. -/
theorem resolve_precedence (data : Record) (coords : List String)
    (st : DeviceStatus) :
    (∀ i, data.DeviceID = some i → resolve_device_id data = some i)
    ∧ (data.DeviceID = none → ∀ m, data.MAC = some m →
        resolve_device_id data = some m)
    ∧ (data.DeviceID = none → data.MAC = none →
        consumer_step coords st data = st)
    ∧ (∀ i, resolve_device_id data = some i → i ∈ coords →
        consumer_step coords st data = update_device st i data)
    ∧ (∀ i, resolve_device_id data = some i → i ∉ coords →
        consumer_step coords st data = st) := by
  refine ⟨?_, ?_, ?_, ?_, ?_⟩
  · intro i h
    unfold resolve_device_id
    rw [h]
  · intro h1 m h2
    unfold resolve_device_id
    rw [h1, h2]
  · intro h1 h2
    unfold consumer_step resolve_device_id
    rw [h1, h2]
  · intro i h hin
    unfold consumer_step
    rw [h]
    exact if_pos hin
  · intro i h hout
    unfold consumer_step
    rw [h]
    exact if_neg hout

/-- A record carrying an explicit DeviceID. -/
def c5recA : Record := { DeviceID := some "A" }

/-- Witness for `resolve_precedence`: a record with DeviceID "A" resolves
to "A" and, with "A" on the roster, is applied to the store. -/
theorem resolve_precedence_witness :
    resolve_device_id c5recA = some "A"
    ∧ consumer_step ["A"] {} c5recA = update_device {} "A" c5recA :=
  ⟨(resolve_precedence c5recA ["A"] {}).1 "A" rfl,
   (resolve_precedence c5recA ["A"] {}).2.2.2.1 "A"
     ((resolve_precedence c5recA ["A"] {}).1 "A" rfl) (by decide)⟩

end WifiRadar
